import Mathlib

/-!
Verification of the `simple_http` module of rust-jsonrpc (`src/simple_http.rs`),
a minimal HTTP 1.0 round-tripper carrying JSON-RPC calls to bitcoind.

Shallow embedding conventions:
* Rust `String` / `&str` / `Vec<u8>` values are modelled as their UTF-8 byte
  sequences, `Bytes := List Nat` (each element < 256 for well-formed data).
* External collaborators are oracles: `serde_json` decoding is a
  `Bytes → Except JsonErr R` parameter, address resolution
  (`ToSocketAddrs::to_socket_addrs`) is a `Bytes → Nat → Except IOErr (List SocketAddr)`
  parameter, and the network read side is a stream `Nat → ReadOutcome`.
* Wall-clock time in the deadline loop of `get_line` is modelled by fuel: the
  number of loop iterations for which `deadline > Instant::now()` still holds.
* A Rust panic (out-of-bounds / non-char-boundary string slice) is modelled as
  an explicit `sliceFault` / `fault` outcome, never as an `Error` value.
-/

/-- UTF-8 byte sequence of a Rust `String`/`&str`/`Vec<u8>`. -/
abbrev Bytes := List Nat

/-- Standard UTF-8 encoding of one Unicode scalar value. -/
def charUtf8 (c : Char) : Bytes :=
  let n := c.toNat
  if n < 128 then [n]
  else if n < 2048 then [192 + n / 64, 128 + n % 64]
  else if n < 65536 then [224 + n / 4096, 128 + n / 64 % 64, 128 + n % 64]
  else [240 + n / 262144, 128 + n / 4096 % 64, 128 + n / 64 % 64, 128 + n % 64]

/-- UTF-8 bytes of a Lean string literal (used to write concrete Rust strings). -/
def utf8Bytes (s : String) : Bytes :=
  (s.data.map charUtf8).flatten

/-- Opaque `std::io::Error` value. -/
abbrev IOErr := Nat

/-- Opaque `serde_json::Error` value. -/
abbrev JsonErr := Nat

/-- A resolved `std::net::SocketAddr` (opaque beyond equality). -/
structure SocketAddr where
  ip : Nat
  port : Nat
deriving DecidableEq

/-- `simple_http::Error` (lines 121-140 of the source). -/
inductive Error where
  | InvalidUrl (url : Bytes) (reason : String)
  | SocketError (e : IOErr)
  | HttpParseError
  | HttpErrorCode (code : Nat)
  | Timeout
  | Json (e : JsonErr)
deriving DecidableEq

/-- `DEFAULT_PORT` (line 19): default RPC port for bitcoind. -/
def DEFAULT_PORT : Nat := 8332

/-- `SimpleHttpTransport` (lines 24-30): the endpoint configuration.
`timeout` is in milliseconds. -/
structure SimpleHttpTransport where
  addr : SocketAddr
  path : Bytes
  timeout : Nat
  basic_auth : Option Bytes
deriving DecidableEq

/-- `impl Default for SimpleHttpTransport` (lines 32-41):
loopback address, `DEFAULT_PORT`, root path, 15 second timeout, no auth. -/
def SimpleHttpTransport.defaultTp : SimpleHttpTransport :=
  { addr := { ip := 2130706433, port := DEFAULT_PORT }
    path := utf8Bytes "/"
    timeout := 15000
    basic_auth := none }

/-- `Builder` (lines 221-223). -/
structure Builder where
  tp : SimpleHttpTransport
deriving DecidableEq

/-- `Builder::new` (lines 228-232). -/
def Builder.new : Builder := { tp := SimpleHttpTransport.defaultTp }

/-- `Builder::timeout` (lines 235-238). -/
def Builder.timeout (self : Builder) (t : Nat) : Builder :=
  { self with tp := { self.tp with timeout := t } }

/-- `Builder::build` (lines 324-326). -/
def Builder.build (self : Builder) : SimpleHttpTransport := self.tp

/-- Rust `str::splitn(2, sep)` for a non-empty separator, returning the parts
before and after the first occurrence of `sep`, or `none` when `sep` does not
occur. Also models `str::find` (first match position) combined with slicing. -/
def splitOnce (sep : Bytes) : Bytes → Option (Bytes × Bytes)
  | [] => none
  | b :: rest =>
    if sep.isPrefixOf (b :: rest) then some ([], (b :: rest).drop sep.length)
    else
      match splitOnce sep rest with
      | some (l, r) => some (b :: l, r)
      | none => none

/-- Rust `str::split(sep)` for a single-byte separator: the first segment plus
the list of remaining segments (`"".split(sep)` yields one empty segment). -/
def splitAll (sep : Nat) : Bytes → Bytes × List Bytes
  | [] => ([], [])
  | b :: rest =>
    let (seg, segs) := splitAll sep rest
    if b = sep then ([], seg :: segs) else (b :: seg, segs)

/-- One decimal digit of `u16::from_str`. -/
def digitVal (b : Nat) : Option Nat :=
  if 48 ≤ b ∧ b ≤ 57 then some (b - 48) else none

/-- Digit loop of `u16::from_str` after an optional `+` sign: checked
multiply-and-add, failing on any non-digit byte or on overflow past 65535. -/
def parseU16Digits : Nat → Bytes → Option Nat
  | acc, [] => some acc
  | acc, b :: rest =>
    match digitVal b with
    | none => none
    | some d => if acc * 10 + d ≤ 65535 then parseU16Digits (acc * 10 + d) rest else none

/-- Rust `str::parse::<u16>`: an optional `+` sign followed by at least one
decimal digit, rejecting overflow.  A leading `-` is stripped only for signed
types in `from_str_radix`, so for `u16` it reaches the digit loop and fails as
an invalid digit (`"-0"` is an error). -/
def parseU16 (bs : Bytes) : Option Nat :=
  match bs with
  | [] => none
  | b :: rest =>
    if b = 43 then (if rest.isEmpty then none else parseU16Digits 0 rest)
    else parseU16Digits 0 bs

/-- One 6-bit group to its base64 alphabet byte (`A-Za-z0-9+/`). -/
def b64char (n : Nat) : Nat :=
  (utf8Bytes "ABCDEFGHIJKLMNOPQRSTUVWXYZabcdefghijklmnopqrstuvwxyz0123456789+/").getD n 0

/-- `base64::encode` (external crate, standard alphabet with `=` padding),
modelled by its documented behaviour: RFC 4648 base64 of the input bytes. -/
def base64Encode : Bytes → Bytes
  | [] => []
  | [a] => [b64char (a / 4), b64char (a % 4 * 16), 61, 61]
  | [a, b] => [b64char (a / 4), b64char (a % 4 * 16 + b / 16), b64char (b % 16 * 4), 61]
  | a :: b :: c :: rest =>
    [b64char (a / 4), b64char (a % 4 * 16 + b / 16),
     b64char (b % 16 * 4 + c / 64), b64char (c % 64)] ++ base64Encode rest

/-- Step (1) of `Builder::url` (lines 250-268): split off the scheme at the
first `"://"`.  Returns the rest of the URL together with the fallback port:
no scheme keeps `DEFAULT_PORT`, `http` selects 80, `https` selects 443, and
any other scheme is an invalid-URL error with the source's reason string. -/
def schemeSplit (url : Bytes) : Except Error (Bytes × Nat) :=
  match splitOnce (utf8Bytes "://") url with
  | none => .ok (url, DEFAULT_PORT)
  | some (s, after) =>
    if s = utf8Bytes "http" then .ok (after, 80)
    else if s = utf8Bytes "https" then .ok (after, 443)
    else .error (Error.InvalidUrl url "scheme schould be http or https")

/-- Step (2) of `Builder::url` (lines 269-276): split off the path at the first
`"/"`; the path keeps the slash, and defaults to `"/"` when no slash exists. -/
def pathSplit (after_scheme : Bytes) : Bytes × Bytes :=
  match splitOnce (utf8Bytes "/") after_scheme with
  | some (before, rest) => (before, 47 :: rest)
  | none => (after_scheme, utf8Bytes "/")

/-- Step (3) of `Builder::url` (lines 277-282): discard everything up to and
including the first `"@"` of the authority (embedded userinfo is ignored). -/
def authPart (before_path : Bytes) : Bytes :=
  match splitOnce (utf8Bytes "@") before_path with
  | some (_, after) => after
  | none => before_path

/-- Lines 283-296 of `Builder::url`: split the remaining authority on `":"`;
the first segment is the hostname, an optional second segment must parse as a
`u16` port (else invalid-URL, reason `"invalid port"`), a third segment is an
invalid-URL error, reason `"unexpected extra colon"`, and a missing port uses
the fallback port. -/
def hostPort (url after_auth : Bytes) (fallback_port : Nat) : Except Error (Bytes × Nat) :=
  let (hostname, rest) := splitAll 58 after_auth
  match rest with
  | [] => .ok (hostname, fallback_port)
  | port_str :: rest2 =>
    match parseU16 port_str with
    | none => .error (Error.InvalidUrl url "invalid port")
    | some port =>
      match rest2 with
      | [] => .ok (hostname, port)
      | _ :: _ => .error (Error.InvalidUrl url "unexpected extra colon")

/-- The purely textual part of `Builder::url` (lines 245-296), composed in
source order; yields the hostname, the port and the path. -/
def urlParse (url : Bytes) : Except Error (Bytes × Nat × Bytes) :=
  match schemeSplit url with
  | .error e => .error e
  | .ok (after_scheme, fallback_port) =>
    let (before_path, path) := pathSplit after_scheme
    match hostPort url (authPart before_path) fallback_port with
    | .error e => .error e
    | .ok (hostname, port) => .ok (hostname, port, path)

/-- `Builder::url` (lines 241-304) with the mutable `self` made observable:
an error exit also returns the state of the builder at that exit, so that the
absence of partial mutation can be stated.  `resolve` is the external
`ToSocketAddrs::to_socket_addrs` oracle; its I/O failure is converted by the
`?` operator through `From<io::Error> for Error` (lines 167-171) into
`SocketError`, and an empty address iterator is the invalid-URL error of line
300.  `addr` and `path` are assigned (lines 298-302) only after every check
has succeeded. -/
def Builder.urlT (self : Builder) (url : Bytes)
    (resolve : Bytes → Nat → Except IOErr (List SocketAddr)) :
    Except (Error × Builder) Builder :=
  match urlParse url with
  | .error e => .error (e, self)
  | .ok (hostname, port, path) =>
    match resolve hostname port with
    | .error e => .error (Error.SocketError e, self)
    | .ok addrs =>
      match addrs.head? with
      | none => .error (Error.InvalidUrl url "invalid hostname: error extracting socket address", self)
      | some a => .ok { self with tp := { self.tp with addr := a, path := path } }

/-- `Builder::url` as the caller sees it (the error value alone). -/
def Builder.url (self : Builder) (url : Bytes)
    (resolve : Bytes → Nat → Except IOErr (List SocketAddr)) : Except Error Builder :=
  match Builder.urlT self url resolve with
  | .error (e, _) => .error e
  | .ok b => .ok b

/-- `Builder::auth` (lines 307-315): credential string `user` + `":"` +
(password or nothing), stored as `"Basic "` followed by its base64 encoding. -/
def Builder.auth (self : Builder) (user : Bytes) (pass : Option Bytes) : Builder :=
  let auth := user ++ [58] ++ (match pass with | some p => p | none => [])
  { self with tp := { self.tp with basic_auth := some (utf8Bytes "Basic " ++ base64Encode auth) } }

/-- `Builder::cookie_auth` (lines 318-321): the raw cookie string, stored as
`"Basic "` followed by its base64 encoding. -/
def Builder.cookie_auth (self : Builder) (cookie : Bytes) : Builder :=
  { self with tp := { self.tp with basic_auth := some (utf8Bytes "Basic " ++ base64Encode cookie) } }

/-- Rust `str::is_char_boundary`: true at 0 and at the total byte length, and
otherwise exactly when the byte at the index is not a UTF-8 continuation byte. -/
def isCharBoundary (bs : Bytes) (i : Nat) : Bool :=
  if i = 0 then true
  else
    match bs.get? i with
    | some b => !(128 ≤ b && b < 192)
    | none => i == bs.length

/-- Rust string range indexing `&s[i..j]`: defined (returning the byte
subrange) exactly when `i ≤ j` and both ends lie on character boundaries;
`none` models the panic of a slice at a non-boundary. -/
def sliceBytes (bs : Bytes) (i j : Nat) : Option Bytes :=
  if i ≤ j && isCharBoundary bs i && isCharBoundary bs j
  then some ((bs.drop i).take (j - i)) else none

/-- The bytes of `"HTTP/1.1 "`, the required status-line prefix. -/
def httpResponsePrefixBytes : Bytes := utf8Bytes "HTTP/1.1 "

/-- Outcome of examining the status line: rejected with `HttpParseError`,
a Rust panic while slicing, or a successfully extracted status code. -/
inductive StatusCheck where
  | parseFail
  | sliceFault
  | code (n : Nat)
deriving DecidableEq

/-- Lines 92-98 of `SimpleHttpTransport::request`: reject the status line when
it is shorter than 12 bytes or does not start with `"HTTP/1.1 "`; otherwise
slice bytes 9..12 (which panics when byte 12 is not a character boundary) and
parse them as a `u16`, rejecting on parse failure. -/
def checkStatusLine (http_response : Bytes) : StatusCheck :=
  if http_response.length < 12 || !(httpResponsePrefixBytes.isPrefixOf http_response) then
    .parseFail
  else
    match sliceBytes http_response 9 12 with
    | none => .sliceFault
    | some sub =>
      match parseU16 sub with
      | some n => .code n
      | none => .parseFail

/-- One attempt of `BufRead::read_line` on the socket: the chunk of bytes
appended to the line (empty models `Ok(0)`), or an I/O error. -/
inductive ReadOutcome where
  | chunk (s : Bytes)
  | fail (e : IOErr)
deriving DecidableEq

/-- The loop of `get_line` (lines 190-203).  `reads` is the stream of
`read_line` outcomes, indexed by read attempt; `pos` is the next index; `line`
is the accumulated line; `fuel` is the number of remaining loop iterations for
which `deadline > Instant::now()` holds (wall time advances every iteration).
Returns the result together with the next stream index and the unused fuel:
an empty chunk sleeps and retries, a non-empty chunk returns the accumulated
line at once, an I/O error aborts at once, and exhausted fuel is `Timeout`. -/
def getLineAux (reads : Nat → ReadOutcome) : Nat → Nat → Bytes → (Except Error Bytes) × Nat × Nat
  | 0, pos, _line => (.error Error.Timeout, pos, 0)
  | fuel + 1, pos, line =>
    match reads pos with
    | .chunk s =>
      let line2 := line ++ s
      if s.isEmpty then getLineAux reads fuel (pos + 1) line2
      else (.ok line2, pos + 1, fuel)
    | .fail e => (.error (Error.SocketError e), pos + 1, fuel)

/-- `get_line` (lines 190-203) viewed from its caller: start with the empty
`String::new()` line at the current stream position. -/
def get_line (reads : Nat → ReadOutcome) (fuel : Nat) : Except Error Bytes :=
  (getLineAux reads fuel 0 []).1

/-- Line 101 of `request`: read and discard header lines until one equals
exactly `"\r\n"`.  The `get_line` call is inlined (its accumulated line always
equals the first non-empty chunk), keeping the recursion structural in fuel. -/
def skipHeaders (reads : Nat → ReadOutcome) : Nat → Nat → (Except Error Unit) × Nat × Nat
  | 0, pos => (.error Error.Timeout, pos, 0)
  | fuel + 1, pos =>
    match reads pos with
    | .chunk s =>
      if s.isEmpty then skipHeaders reads fuel (pos + 1)
      else if s = utf8Bytes "\r\n" then (.ok (), pos + 1, fuel)
      else skipHeaders reads fuel (pos + 1)
    | .fail e => (.error (Error.SocketError e), pos + 1, fuel)

/-- Lines 106-116 of `request`: on decode success return the value whatever the
status code was; on decode failure return `HttpErrorCode` for a non-200 status
and the decode error itself for a 200 status. -/
def handleBody {R : Type} (response_code : Nat) (d : Except JsonErr R) : Except Error R :=
  match d with
  | .ok s => .ok s
  | .error e =>
    if response_code ≠ 200 then .error (Error.HttpErrorCode response_code)
    else .error (Error.Json e)

/-- Result of one full `request` call: a decoded value, a typed error, or a
Rust panic (`fault`). -/
inductive RunResult (R : Type) where
  | ok (r : R)
  | err (e : Error)
  | fault
deriving DecidableEq

/-- One event on the write side of the connection: a `write_all` call with its
bytes, or a `flush` call. -/
inductive WireEvent where
  | write (chunk : Bytes)
  | flush
deriving DecidableEq

/-- Lines 68-84 of `request`: the successive `write_all` calls, in source
order.  `body` is the `serde_json::to_vec` serialization of the payload
(serialized before any write, so its length is known for `Content-Length`). -/
def requestWrites (tp : SimpleHttpTransport) (body : Bytes) : List Bytes :=
  [utf8Bytes "POST ", tp.path, utf8Bytes " HTTP/1.1\r\n",
   utf8Bytes "Connection: Close\r\n",
   utf8Bytes "Content-Type: application/json\r\n",
   utf8Bytes "Content-Length: ", utf8Bytes (toString body.length), utf8Bytes "\r\n"] ++
  (match tp.basic_auth with
   | some auth => [utf8Bytes "Authorization: ", auth, utf8Bytes "\r\n"]
   | none => []) ++
  [utf8Bytes "\r\n", body]

/-- Lines 68-85 of `request`: the full write-side event trace — every
`write_all` in order, then the final `flush`. -/
def requestWireTrace (tp : SimpleHttpTransport) (body : Bytes) : List WireEvent :=
  (requestWrites tp body).map WireEvent.write ++ [WireEvent.flush]

/-- The bytes put on the wire by a write-side event trace. -/
def wireBytes : List WireEvent → Bytes
  | [] => []
  | WireEvent.write s :: rest => s ++ wireBytes rest
  | WireEvent.flush :: rest => wireBytes rest

/-- Lines 87-116 of `request`: the read side.  Read the status line, check it
(lines 92-98), skip headers until the blank line (line 101), read the body
line (line 105) and hand it to the decode handling (lines 106-116).  The
deadline fuel and the stream position are threaded through the successive
`get_line` calls, which all share `request_deadline`. -/
def responsePhase {R : Type} (reads : Nat → ReadOutcome) (fuel : Nat)
    (decode : Bytes → Except JsonErr R) : RunResult R :=
  match getLineAux reads fuel 0 [] with
  | (.error e, _, _) => .err e
  | (.ok http_response, pos, fuel2) =>
    match checkStatusLine http_response with
    | .parseFail => .err Error.HttpParseError
    | .sliceFault => .fault
    | .code response_code =>
      match skipHeaders reads fuel2 pos with
      | (.error e, _, _) => .err e
      | (.ok _, pos2, fuel3) =>
        match getLineAux reads fuel3 pos2 [] with
        | (.error e, _, _) => .err e
        | (.ok resp_body, _, _) =>
          match handleBody response_code (decode resp_body) with
          | .ok r => RunResult.ok r
          | .error e => RunResult.err e

/-- `SimpleHttpTransport::request` (lines 54-117) after the connection is
open: the write-side trace happens first (lines 64-85), then the response is
parsed (lines 87-116).  Returns the wire trace together with the outcome. -/
def requestRun {R : Type} (tp : SimpleHttpTransport) (body : Bytes)
    (reads : Nat → ReadOutcome) (fuel : Nat) (decode : Bytes → Except JsonErr R) :
    List WireEvent × RunResult R :=
  (requestWireTrace tp body, responsePhase reads fuel decode)

/-- The byte sequence claim C3 states for the request: stated from the spec's
words, for comparison with the trace produced by `requestRun`. -/
def specRequestBytes (path : Bytes) (auth : Option Bytes) (body : Bytes) : Bytes :=
  utf8Bytes "POST " ++ path ++ utf8Bytes " HTTP/1.1\r\n" ++
  utf8Bytes "Connection: Close\r\n" ++
  utf8Bytes "Content-Type: application/json\r\n" ++
  utf8Bytes "Content-Length: " ++ utf8Bytes (toString body.length) ++ utf8Bytes "\r\n" ++
  (match auth with
   | some a => utf8Bytes "Authorization: " ++ a ++ utf8Bytes "\r\n"
   | none => []) ++
  utf8Bytes "\r\n" ++ body

instance {ε α : Type} [DecidableEq ε] [DecidableEq α] : DecidableEq (Except ε α) := fun x y =>
  match x, y with
  | .ok a, .ok b =>
    if h : a = b then isTrue (by rw [h])
    else isFalse (fun hh => h (by injection hh))
  | .error a, .error b =>
    if h : a = b then isTrue (by rw [h])
    else isFalse (fun hh => h (by injection hh))
  | .ok _, .error _ => isFalse (fun hh => Except.noConfusion hh)
  | .error _, .ok _ => isFalse (fun hh => Except.noConfusion hh)

/-- Discriminator for the invalid-URL error kind of a `Builder::url` result
(spec-side, used to state claim C2). -/
def isInvalidUrlResult : Except Error Builder → Bool
  | .error (Error.InvalidUrl _ _) => true
  | _ => false

/-- Read stream that never delivers data. -/
def readsAllEmpty : Nat → ReadOutcome := fun _ => ReadOutcome.chunk []

/-- Read stream: two empty reads, then the chunk `"HTTP"` forever. -/
def readsDataAt2 : Nat → ReadOutcome :=
  fun i => if i < 2 then ReadOutcome.chunk [] else ReadOutcome.chunk (utf8Bytes "HTTP")

/-- Read stream: one empty read, then an I/O error forever. -/
def readsFailAt1 : Nat → ReadOutcome :=
  fun i => if i < 1 then ReadOutcome.chunk [] else ReadOutcome.fail 7

/-- Resolution oracle returning an empty address list. -/
def resolveNone : Bytes → Nat → Except IOErr (List SocketAddr) := fun _ _ => Except.ok []

/-- Resolution oracle failing with I/O error 5. -/
def resolveFail5 : Bytes → Nat → Except IOErr (List SocketAddr) := fun _ _ => Except.error 5

/-- Helper: the last element of a list extended by one element. -/
theorem getLast_append_singleton {α : Type} (l : List α) (x : α) :
    (l ++ [x]).getLast? = some x := by
  induction l with
  | nil => rfl
  | cons a t ih =>
    rw [List.cons_append, List.getLast?_cons, ih]
    cases t <;> simp

/-- Claim C1: in the body handling of `SimpleHttpTransport::request`, a decoded
body is returned whatever the status code; an undecodable body yields
`HttpErrorCode` when the status is not 200, and the decode error itself when
the status is 200. -/
theorem c1_body_decode {R : Type} (code : Nat) (s : R) (e : JsonErr) :
    handleBody code (Except.ok s) = Except.ok s
    ∧ (code ≠ 200 →
        @handleBody R code (Except.error e) = Except.error (Error.HttpErrorCode code))
    ∧ @handleBody R 200 (Except.error e) = Except.error (Error.Json e) := by
  refine ⟨rfl, ?_, ?_⟩
  · intro h; simp [handleBody, h]
  · simp [handleBody]

/-- Witness for C1 at status code 404 and a failing decode. -/
theorem c1_body_decode_witness :
    (404 ≠ 200)
    ∧ @handleBody Nat 404 (Except.error 1) = Except.error (Error.HttpErrorCode 404) :=
  ⟨by decide, (c1_body_decode 404 (0 : Nat) 1).2.1 (by decide)⟩

/-- Claim C8: `Builder::auth` stores `"Basic " ++ base64 (user ++ ":" ++ pass)`,
with an absent password yielding the credential `user ++ ":"`, and
`Builder::cookie_auth` stores `"Basic " ++ base64 cookie`. -/
theorem c8_auth_header (b : Builder) (user pass cookie : Bytes) :
    (Builder.auth b user (some pass)).tp.basic_auth
        = some (utf8Bytes "Basic " ++ base64Encode (user ++ utf8Bytes ":" ++ pass))
    ∧ (Builder.auth b user none).tp.basic_auth
        = some (utf8Bytes "Basic " ++ base64Encode (user ++ utf8Bytes ":"))
    ∧ (Builder.cookie_auth b cookie).tp.basic_auth
        = some (utf8Bytes "Basic " ++ base64Encode cookie) := by
  have hc : utf8Bytes ":" = [58] := rfl
  refine ⟨?_, ?_, rfl⟩ <;> simp [Builder.auth, hc]

/-- Claim C10 is a code bug: the status line `"HTTP/1.1 ¢¢"` (13 UTF-8 bytes)
passes the length check and the `"HTTP/1.1 "` prefix check, yet byte offset 12
is not a character boundary, so the slice `http_response[9..12]` panics. -/
theorem c10_slice_fault :
    12 ≤ (utf8Bytes "HTTP/1.1 ¢¢").length
    ∧ httpResponsePrefixBytes.isPrefixOf (utf8Bytes "HTTP/1.1 ¢¢") = true
    ∧ isCharBoundary (utf8Bytes "HTTP/1.1 ¢¢") 12 = false
    ∧ checkStatusLine (utf8Bytes "HTTP/1.1 ¢¢") = StatusCheck.sliceFault := by
  decide

/-- Counterexample to claim C2 as stated: when resolution itself fails (an I/O
error from `to_socket_addrs`), `Builder::url` returns `SocketError`, not an
invalid-URL error. -/
theorem c2_resolution_cex :
    Builder.url Builder.new (utf8Bytes "localhost") resolveFail5
        = Except.error (Error.SocketError 5)
    ∧ isInvalidUrlResult (Builder.url Builder.new (utf8Bytes "localhost") resolveFail5)
        = false := by
  decide

/-- Claim C2 as amended: on a URL whose textual parsing succeeds, an empty
resolution result set yields the invalid-URL error of line 300, while a
resolution failure yields a socket error wrapping the I/O failure. -/
theorem c2_resolution (self : Builder) (url hn path : Bytes) (p : Nat) (e : IOErr)
    (hp : urlParse url = Except.ok (hn, p, path)) :
    Builder.url self url (fun _ _ => Except.error e) = Except.error (Error.SocketError e)
    ∧ Builder.url self url (fun _ _ => Except.ok []) =
        Except.error (Error.InvalidUrl url "invalid hostname: error extracting socket address") := by
  constructor <;> simp [Builder.url, Builder.urlT, hp]

/-- Witness for C2 at the URL `"localhost:80"`. -/
theorem c2_resolution_witness :
    urlParse (utf8Bytes "localhost:80")
        = Except.ok (utf8Bytes "localhost", 80, utf8Bytes "/")
    ∧ (Builder.url Builder.new (utf8Bytes "localhost:80") (fun _ _ => Except.error 5)
          = Except.error (Error.SocketError 5)
        ∧ Builder.url Builder.new (utf8Bytes "localhost:80") (fun _ _ => Except.ok []) =
            Except.error
              (Error.InvalidUrl (utf8Bytes "localhost:80")
                "invalid hostname: error extracting socket address")) :=
  ⟨by decide,
   c2_resolution Builder.new (utf8Bytes "localhost:80") (utf8Bytes "localhost")
     (utf8Bytes "/") 80 5 (by decide)⟩

/-- Claim C3: for every configuration, body and read-side behaviour, the write
trace of `request` is exactly the claimed byte sequence — request line, the
fixed headers, `Content-Length` with the decimal body length, the
`Authorization` header exactly when authentication is configured, the blank
line, then the body — and ends with the flush.  The trace does not depend on
`reads`, so all of it precedes any read. -/
theorem c3_wire_format {R : Type} (tp : SimpleHttpTransport) (body : Bytes)
    (reads : Nat → ReadOutcome) (fuel : Nat) (decode : Bytes → Except JsonErr R) :
    wireBytes (requestRun tp body reads fuel decode).1
        = specRequestBytes tp.path tp.basic_auth body
    ∧ (requestRun tp body reads fuel decode).1.getLast? = some WireEvent.flush := by
  constructor
  · cases h : tp.basic_auth <;>
      simp [requestRun, requestWireTrace, requestWrites, wireBytes, specRequestBytes, h]
  · simp [requestRun, requestWireTrace, getLast_append_singleton]

/-- Claim C9: whenever `Builder::url` exits with an error — at any of its error
returns — the builder state observed at that exit is exactly the input state:
`addr` and `path` are assigned only after every validation step succeeded, so
no partially-built configuration is ever produced. -/
theorem c9_no_partial_config (self : Builder) (url : Bytes)
    (resolve : Bytes → Nat → Except IOErr (List SocketAddr)) (e : Error) (b2 : Builder)
    (h : Builder.urlT self url resolve = Except.error (e, b2)) : b2 = self := by
  unfold Builder.urlT at h
  repeat' split at h
  all_goals simp_all

/-- Witness for C9 at the erroring URL `"ftp://x"`. -/
theorem c9_no_partial_config_witness :
    Builder.urlT Builder.new (utf8Bytes "ftp://x") resolveNone
        = Except.error
            (Error.InvalidUrl (utf8Bytes "ftp://x") "scheme schould be http or https",
             Builder.new)
    ∧ Builder.new = Builder.new :=
  ⟨by decide,
   c9_no_partial_config Builder.new (utf8Bytes "ftp://x") resolveNone
     (Error.InvalidUrl (utf8Bytes "ftp://x") "scheme schould be http or https")
     Builder.new (by decide)⟩

/-- Claim C6: `Builder::url` splits its input at the first `"://"`.  When the
separator is present, a left part of exactly `"http"` selects fallback port 80,
exactly `"https"` selects 443, and anything else makes the method fail with the
invalid-URL error; when absent, the fallback port stays `DEFAULT_PORT = 8332`. -/
theorem c6_scheme_split (url l r : Bytes) (b : Builder)
    (resolve : Bytes → Nat → Except IOErr (List SocketAddr)) :
    (splitOnce (utf8Bytes "://") url = some (l, r) →
       (l = utf8Bytes "http" → schemeSplit url = Except.ok (r, 80))
       ∧ (l = utf8Bytes "https" → schemeSplit url = Except.ok (r, 443))
       ∧ (l ≠ utf8Bytes "http" → l ≠ utf8Bytes "https" →
           schemeSplit url
               = Except.error (Error.InvalidUrl url "scheme schould be http or https")
           ∧ Builder.url b url resolve
               = Except.error (Error.InvalidUrl url "scheme schould be http or https")))
    ∧ (splitOnce (utf8Bytes "://") url = none → schemeSplit url = Except.ok (url, DEFAULT_PORT))
    ∧ DEFAULT_PORT = 8332 := by
  refine ⟨?_, ?_, rfl⟩
  · intro hs
    refine ⟨?_, ?_, ?_⟩
    · intro h1
      subst h1
      simp [schemeSplit, hs]
    · intro h2
      subst h2
      have h1 : utf8Bytes "https" ≠ utf8Bytes "http" := by decide
      simp [schemeSplit, hs, h1]
    · intro hn1 hn2
      have he : schemeSplit url
          = Except.error (Error.InvalidUrl url "scheme schould be http or https") := by
        simp [schemeSplit, hs, hn1, hn2]
      refine ⟨he, ?_⟩
      simp [Builder.url, Builder.urlT, urlParse, he]
  · intro h
    simp [schemeSplit, h]

/-- Witness for C6 at the URLs `"http://x"`, `"https://x"`, `"ftp://x"` and
`"localhost:22"`. -/
theorem c6_scheme_split_witness :
    schemeSplit (utf8Bytes "http://x") = Except.ok (utf8Bytes "x", 80)
    ∧ schemeSplit (utf8Bytes "https://x") = Except.ok (utf8Bytes "x", 443)
    ∧ schemeSplit (utf8Bytes "ftp://x")
        = Except.error (Error.InvalidUrl (utf8Bytes "ftp://x") "scheme schould be http or https")
    ∧ Builder.url Builder.new (utf8Bytes "ftp://x") resolveNone
        = Except.error (Error.InvalidUrl (utf8Bytes "ftp://x") "scheme schould be http or https")
    ∧ schemeSplit (utf8Bytes "localhost:22")
        = Except.ok (utf8Bytes "localhost:22", DEFAULT_PORT) :=
  ⟨((c6_scheme_split (utf8Bytes "http://x") (utf8Bytes "http") (utf8Bytes "x")
      Builder.new resolveNone).1 (by decide)).1 rfl,
   ((c6_scheme_split (utf8Bytes "https://x") (utf8Bytes "https") (utf8Bytes "x")
      Builder.new resolveNone).1 (by decide)).2.1 rfl,
   (((c6_scheme_split (utf8Bytes "ftp://x") (utf8Bytes "ftp") (utf8Bytes "x")
      Builder.new resolveNone).1 (by decide)).2.2 (by decide) (by decide)).1,
   (((c6_scheme_split (utf8Bytes "ftp://x") (utf8Bytes "ftp") (utf8Bytes "x")
      Builder.new resolveNone).1 (by decide)).2.2 (by decide) (by decide)).2,
   (c6_scheme_split (utf8Bytes "localhost:22") [] [] Builder.new resolveNone).2.1 (by decide)⟩

/-- Claim C7: after the scheme is removed, `Builder::url` splits off the path
at the first `"/"` (path defaulting to `"/"`), discards everything up to and
including the first `"@"`, and splits the remainder on `":"`: the first segment
is the hostname; a second segment must parse as a `u16` port, else the
invalid-port error; a third segment gives the extra-colon error; a missing
second segment uses the fallback port. -/
theorem c7_authority (after_scheme bp rest pre post aa hn ps url : Bytes)
    (fp p : Nat) (t : List Bytes) :
    (splitOnce (utf8Bytes "/") after_scheme = none →
        pathSplit after_scheme = (after_scheme, utf8Bytes "/"))
    ∧ (splitOnce (utf8Bytes "/") after_scheme = some (bp, rest) →
        pathSplit after_scheme = (bp, 47 :: rest))
    ∧ (splitOnce (utf8Bytes "@") bp = some (pre, post) → authPart bp = post)
    ∧ (splitOnce (utf8Bytes "@") bp = none → authPart bp = bp)
    ∧ (splitAll 58 aa = (hn, []) → hostPort url aa fp = Except.ok (hn, fp))
    ∧ (splitAll 58 aa = (hn, ps :: t) → parseU16 ps = none →
        hostPort url aa fp = Except.error (Error.InvalidUrl url "invalid port"))
    ∧ (splitAll 58 aa = (hn, ps :: t) → parseU16 ps = some p → t = [] →
        hostPort url aa fp = Except.ok (hn, p))
    ∧ (splitAll 58 aa = (hn, ps :: t) → parseU16 ps = some p → t ≠ [] →
        hostPort url aa fp = Except.error (Error.InvalidUrl url "unexpected extra colon")) := by
  refine ⟨?_, ?_, ?_, ?_, ?_, ?_, ?_, ?_⟩
  · intro h; simp [pathSplit, h]
  · intro h; simp [pathSplit, h]
  · intro h; simp [authPart, h]
  · intro h; simp [authPart, h]
  · intro h; simp [hostPort, h]
  · intro h hp; simp [hostPort, h, hp]
  · intro h hp ht; subst ht; simp [hostPort, h, hp]
  · intro h hp ht
    cases t with
    | nil => exact absurd rfl ht
    | cons x xs => simp [hostPort, h, hp]

/-- Witness for C7 at concrete authorities: `"host:22"` (no path, no port
error), `"h/w/x"`, `"me:pw@host"`, `"host"`, `"host:ab"`, `"host:22"`,
`"host:22:7"`, and `"host:-0"` (a signed port string, rejected by the `u16`
parse). -/
theorem c7_authority_witness :
    pathSplit (utf8Bytes "host:22") = (utf8Bytes "host:22", utf8Bytes "/")
    ∧ pathSplit (utf8Bytes "h/w/x") = (utf8Bytes "h", 47 :: utf8Bytes "w/x")
    ∧ authPart (utf8Bytes "me:pw@host") = utf8Bytes "host"
    ∧ authPart (utf8Bytes "host") = utf8Bytes "host"
    ∧ hostPort (utf8Bytes "u1") (utf8Bytes "host") 8332 = Except.ok (utf8Bytes "host", 8332)
    ∧ hostPort (utf8Bytes "u2") (utf8Bytes "host:ab") 8332
        = Except.error (Error.InvalidUrl (utf8Bytes "u2") "invalid port")
    ∧ hostPort (utf8Bytes "u3") (utf8Bytes "host:22") 8332 = Except.ok (utf8Bytes "host", 22)
    ∧ hostPort (utf8Bytes "u4") (utf8Bytes "host:22:7") 8332
        = Except.error (Error.InvalidUrl (utf8Bytes "u4") "unexpected extra colon")
    ∧ hostPort (utf8Bytes "u5") (utf8Bytes "host:-0") 8332
        = Except.error (Error.InvalidUrl (utf8Bytes "u5") "invalid port") :=
  ⟨(c7_authority (utf8Bytes "host:22") [] [] [] [] [] [] [] [] 0 0 []).1 (by decide),
   (c7_authority (utf8Bytes "h/w/x") (utf8Bytes "h") (utf8Bytes "w/x") [] [] [] [] [] [] 0 0
      []).2.1 (by decide),
   (c7_authority [] (utf8Bytes "me:pw@host") [] (utf8Bytes "me:pw") (utf8Bytes "host") [] [] []
      [] 0 0 []).2.2.1 (by decide),
   (c7_authority [] (utf8Bytes "host") [] [] [] [] [] [] [] 0 0 []).2.2.2.1 (by decide),
   (c7_authority [] [] [] [] [] (utf8Bytes "host") (utf8Bytes "host") [] (utf8Bytes "u1") 8332 0
      []).2.2.2.2.1 (by decide),
   (c7_authority [] [] [] [] [] (utf8Bytes "host:ab") (utf8Bytes "host") (utf8Bytes "ab")
      (utf8Bytes "u2") 8332 0 []).2.2.2.2.2.1 (by decide) (by decide),
   (c7_authority [] [] [] [] [] (utf8Bytes "host:22") (utf8Bytes "host") (utf8Bytes "22")
      (utf8Bytes "u3") 8332 22 []).2.2.2.2.2.2.1 (by decide) (by decide) rfl,
   (c7_authority [] [] [] [] [] (utf8Bytes "host:22:7") (utf8Bytes "host") (utf8Bytes "22")
      (utf8Bytes "u4") 8332 22 [utf8Bytes "7"]).2.2.2.2.2.2.2 (by decide) (by decide)
      (by decide),
   (c7_authority [] [] [] [] [] (utf8Bytes "host:-0") (utf8Bytes "host") (utf8Bytes "-0")
      (utf8Bytes "u5") 8332 0 []).2.2.2.2.2.1 (by decide) (by decide)⟩

/-- Counterexample to claim C5 as stated: the status line `"HTTP/1.1 a€"`
(13 UTF-8 bytes) passes the length and prefix checks, yet the code neither
rejects it with an HTTP parse error nor produces a status code — the slice at
byte offsets 9..12 panics, because offset 12 is inside the `€` character. -/
theorem c5_status_line_cex :
    ((utf8Bytes "HTTP/1.1 a€").length < 12
        || !(httpResponsePrefixBytes.isPrefixOf (utf8Bytes "HTTP/1.1 a€"))) = false
    ∧ checkStatusLine (utf8Bytes "HTTP/1.1 a€") = StatusCheck.sliceFault := by
  decide

/-- Claim C5 as amended: a status line shorter than 12 bytes or not starting
with `"HTTP/1.1 "` is always rejected with an HTTP parse error.  A line passing
both checks in which byte offsets 9 and 12 fall on character boundaries (the
only lines on which the 9..12 slice does not panic; offset 9 always does for
valid UTF-8 once the prefix holds) is rejected with an HTTP parse error exactly
when bytes 9..12 do not parse as a `u16`; otherwise those bytes become the
response status code. -/
theorem c5_status_line (l : Bytes) :
    ((l.length < 12 ∨ ¬ (httpResponsePrefixBytes.isPrefixOf l = true)) →
        checkStatusLine l = StatusCheck.parseFail)
    ∧ (12 ≤ l.length → httpResponsePrefixBytes.isPrefixOf l = true →
        isCharBoundary l 9 = true → isCharBoundary l 12 = true →
        ((checkStatusLine l = StatusCheck.parseFail ↔
            parseU16 ((l.drop 9).take 3) = none)
          ∧ (∀ n, checkStatusLine l = StatusCheck.code n ↔
              parseU16 ((l.drop 9).take 3) = some n))) := by
  constructor
  · intro h
    rcases h with h | h
    · simp [checkStatusLine, h]
    · simp [checkStatusLine, h]
  · intro hlen hp h9 h12
    have hslice : sliceBytes l 9 12 = some ((l.drop 9).take 3) := by
      simp [sliceBytes, h9, h12]
    cases hq : parseU16 ((l.drop 9).take 3) with
    | none =>
      have hc : checkStatusLine l = StatusCheck.parseFail := by
        simp [checkStatusLine, hslice, hp, hq, Nat.not_lt.mpr hlen]
      constructor
      · simp [hc, hq]
      · intro n
        simp [hc, hq]
    | some m =>
      have hc : checkStatusLine l = StatusCheck.code m := by
        simp [checkStatusLine, hslice, hp, hq, Nat.not_lt.mpr hlen]
      constructor
      · simp [hc, hq]
      · intro n
        simp [hc, hq]

/-- Witness for C5: the short line `"HTTP/1.1"` is rejected; the ASCII line
`"HTTP/1.1 200 OK\r\n"` satisfies every hypothesis of the boundary-safe case;
and `"HTTP/1.1 -00"` (whose bytes 9..12 are no valid `u16`) is rejected. -/
theorem c5_status_line_witness :
    checkStatusLine (utf8Bytes "HTTP/1.1") = StatusCheck.parseFail
    ∧ (12 ≤ (utf8Bytes "HTTP/1.1 200 OK\r\n").length
       ∧ httpResponsePrefixBytes.isPrefixOf (utf8Bytes "HTTP/1.1 200 OK\r\n") = true
       ∧ isCharBoundary (utf8Bytes "HTTP/1.1 200 OK\r\n") 9 = true
       ∧ isCharBoundary (utf8Bytes "HTTP/1.1 200 OK\r\n") 12 = true)
    ∧ ((checkStatusLine (utf8Bytes "HTTP/1.1 200 OK\r\n") = StatusCheck.parseFail ↔
          parseU16 (((utf8Bytes "HTTP/1.1 200 OK\r\n").drop 9).take 3) = none)
        ∧ (∀ n, checkStatusLine (utf8Bytes "HTTP/1.1 200 OK\r\n") = StatusCheck.code n ↔
            parseU16 (((utf8Bytes "HTTP/1.1 200 OK\r\n").drop 9).take 3) = some n))
    ∧ checkStatusLine (utf8Bytes "HTTP/1.1 -00") = StatusCheck.parseFail :=
  ⟨(c5_status_line (utf8Bytes "HTTP/1.1")).1 (by decide),
   ⟨by decide, by decide, by decide, by decide⟩,
   (c5_status_line (utf8Bytes "HTTP/1.1 200 OK\r\n")).2 (by decide) (by decide) (by decide)
     (by decide),
   ((c5_status_line (utf8Bytes "HTTP/1.1 -00")).2 (by decide) (by decide) (by decide)
     (by decide)).1.mpr (by decide)⟩

/-- Helper for C4: while every read in reach returns zero bytes, the loop of
`get_line` runs the deadline down and times out, whatever line was
accumulated. -/
theorem getLineAux_all_empty (reads : Nat → ReadOutcome) :
    ∀ fuel pos line, (∀ i, i < fuel → reads (pos + i) = ReadOutcome.chunk []) →
      (getLineAux reads fuel pos line).1 = Except.error Error.Timeout := by
  intro fuel
  induction fuel with
  | zero => intro pos line _; simp [getLineAux]
  | succ f ih =>
    intro pos line hall
    have h0 : reads pos = ReadOutcome.chunk [] := by simpa using hall 0 (Nat.succ_pos f)
    have hrec := ih (pos + 1) (line ++ []) (fun i hi => by
      have hx := hall (i + 1) (by omega)
      have he : pos + (i + 1) = pos + 1 + i := by omega
      rwa [he] at hx)
    simpa [getLineAux, h0] using hrec

/-- Helper for C4: after `j` empty reads, a read delivering the non-empty chunk
`s` makes the loop of `get_line` return the accumulated line at once. -/
theorem getLineAux_first_data (reads : Nat → ReadOutcome) (s : Bytes)
    (hs : s.isEmpty = false) :
    ∀ j fuel pos line, (∀ i, i < j → reads (pos + i) = ReadOutcome.chunk []) →
      reads (pos + j) = ReadOutcome.chunk s → j < fuel →
      (getLineAux reads fuel pos line).1 = Except.ok (line ++ s) := by
  intro j
  induction j with
  | zero =>
    intro fuel pos line _ hj hf
    cases fuel with
    | zero => omega
    | succ f =>
      have hj0 : reads pos = ReadOutcome.chunk s := by simpa using hj
      simp [getLineAux, hj0, hs]
  | succ k ih =>
    intro fuel pos line hall hj hf
    cases fuel with
    | zero => omega
    | succ f =>
      have h0 : reads pos = ReadOutcome.chunk [] := by simpa using hall 0 (Nat.succ_pos k)
      have hrec := ih f (pos + 1) (line ++ [])
        (fun i hi => by
          have hx := hall (i + 1) (by omega)
          have he : pos + (i + 1) = pos + 1 + i := by omega
          rwa [he] at hx)
        (by
          have he : pos + (k + 1) = pos + 1 + k := by omega
          rwa [he] at hj)
        (by omega)
      simpa [getLineAux, h0] using hrec

/-- Helper for C4: after `j` empty reads, an I/O failure makes the loop of
`get_line` abort at once with a wrapped socket error. -/
theorem getLineAux_first_fail (reads : Nat → ReadOutcome) (e : IOErr) :
    ∀ j fuel pos line, (∀ i, i < j → reads (pos + i) = ReadOutcome.chunk []) →
      reads (pos + j) = ReadOutcome.fail e → j < fuel →
      (getLineAux reads fuel pos line).1 = Except.error (Error.SocketError e) := by
  intro j
  induction j with
  | zero =>
    intro fuel pos line _ hj hf
    cases fuel with
    | zero => omega
    | succ f =>
      have hj0 : reads pos = ReadOutcome.fail e := by simpa using hj
      simp [getLineAux, hj0]
  | succ k ih =>
    intro fuel pos line hall hj hf
    cases fuel with
    | zero => omega
    | succ f =>
      have h0 : reads pos = ReadOutcome.chunk [] := by simpa using hall 0 (Nat.succ_pos k)
      have hrec := ih f (pos + 1) (line ++ [])
        (fun i hi => by
          have hx := hall (i + 1) (by omega)
          have he : pos + (i + 1) = pos + 1 + i := by omega
          rwa [he] at hx)
        (by
          have he : pos + (k + 1) = pos + 1 + k := by omega
          rwa [he] at hj)
        (by omega)
      simpa [getLineAux, h0] using hrec

/-- Claim C4: if every read until the deadline yields zero bytes, `get_line`
times out and returns no partial line; the first read delivering any bytes
makes it return the accumulated line immediately (terminator or not); and an
underlying I/O error makes it return a wrapped socket error immediately,
independent of how much deadline fuel remains beyond that read. -/
theorem c4_get_line (reads : Nat → ReadOutcome) (fuel j : Nat) (s : Bytes) (e : IOErr) :
    ((∀ i, i < fuel → reads i = ReadOutcome.chunk []) →
        get_line reads fuel = Except.error Error.Timeout)
    ∧ ((∀ i, i < j → reads i = ReadOutcome.chunk []) → reads j = ReadOutcome.chunk s →
        s ≠ [] → j < fuel → get_line reads fuel = Except.ok s)
    ∧ ((∀ i, i < j → reads i = ReadOutcome.chunk []) → reads j = ReadOutcome.fail e →
        j < fuel → get_line reads fuel = Except.error (Error.SocketError e)) := by
  refine ⟨?_, ?_, ?_⟩
  · intro hall
    have hx := getLineAux_all_empty reads fuel 0 [] (fun i hi => by simpa using hall i hi)
    simpa [get_line] using hx
  · intro hall hj hne hf
    have hs : s.isEmpty = false := by
      cases s with
      | nil => exact absurd rfl hne
      | cons a t => rfl
    have hx := getLineAux_first_data reads s hs j fuel 0 []
      (fun i hi => by simpa using hall i hi) (by simpa using hj) hf
    simpa [get_line] using hx
  · intro hall hj hf
    have hx := getLineAux_first_fail reads e j fuel 0 []
      (fun i hi => by simpa using hall i hi) (by simpa using hj) hf
    simpa [get_line] using hx

/-- Witness for C4 on three concrete read streams: only empty reads, data after
two empty reads, and an I/O failure after one empty read. -/
theorem c4_get_line_witness :
    get_line readsAllEmpty 3 = Except.error Error.Timeout
    ∧ get_line readsDataAt2 5 = Except.ok (utf8Bytes "HTTP")
    ∧ get_line readsFailAt1 4 = Except.error (Error.SocketError 7) :=
  ⟨(c4_get_line readsAllEmpty 3 0 [] 0).1 (by decide),
   (c4_get_line readsDataAt2 5 2 (utf8Bytes "HTTP") 0).2.1 (by decide) (by decide) (by decide)
     (by decide),
   (c4_get_line readsFailAt1 4 1 [] 7).2.2 (by decide) (by decide) (by decide)⟩
